import Mathlib

/-!
# Academic-records service layer: shallow embedding

Embedding of the enrollment rule engine of the academic API:

* data model (`accounts/models.py`, `subjects/models.py`): users with an
  optional role and an optional Student profile, subjects with prerequisite
  ids and an optional assigned instructor, enrollments with a four-valued
  state and an optional grade, notifications;
* services (`subjects/services.py`): `can_enroll`, `enroll`, `grade`,
  `close_subject`;
* statistics (`accounts/services.py`): approval / failure rates of
  `get_admin_statistics`.

Modelling conventions:

* the relational store is a `DB` structure holding explicit lists of rows;
  every service takes the `DB` and returns the (possibly updated) `DB`, so
  Python's in-place ORM mutation becomes explicit state passing;
* `DecimalField(max_digits=3, decimal_places=1)` grades are stored as
  integer tenths (`grade = some g` means the stored decimal is `g / 10`),
  so decimal comparisons are exact;
* the grade input (a Python float) is a rational; `round(Decimal(value), 1)`
  is decimal rounding half-to-even to one fractional digit, modelled by
  `roundHalfEvenTenths`;
* percentage rates rounded to 2 decimal places are stored as integer
  hundredths (`6667` means `66.67`), computed by half-to-even rounding;
* Django's `Model.objects.get` raising `DoesNotExist` becomes
  `SvcError.notFound`; `ValueError("invalid range")` becomes
  `SvcError.invalidRange`.
-/

namespace AcademicApi

/-- The four enrollment lifecycle states of `Enrollment.STATES`. -/
inductive EState where
  | enrolled
  | approved
  | failed
  | closed
deriving DecidableEq, Repr

/-- `accounts.models.Student` profile: only the credit limit matters to the
services (`max_credits_per_term`, default 16 in the source). -/
structure Student where
  max_credits_per_term : Nat
deriving DecidableEq, Repr

/-- `accounts.models.User`: a nullable role (by role name) and the reverse
one-to-one Student profile (`hasattr(user, "student")` ↔ `student ≠ none`). -/
structure User where
  id : Nat
  role : Option String
  student : Option Student
deriving DecidableEq, Repr

/-- `subjects.models.Subject`: prerequisites are kept as a list of subject
ids, the assigned instructor as an optional user id. -/
structure Subject where
  id : Nat
  name : String
  code : String
  credits : Nat
  prerequisites : List Nat
  assigned_instructor : Option Nat
deriving DecidableEq, Repr

/-- `subjects.models.Enrollment`: `grade = some g` stores the one-decimal
value `g / 10`; `created_at` is a logical timestamp. -/
structure Enrollment where
  id : Nat
  student : Nat
  subject : Nat
  state : EState
  grade : Option Int
  created_at : Nat
deriving DecidableEq, Repr

/-- `notifications.models.Notification` (the fields the grading path sets). -/
structure Notification where
  user : Nat
  type : String
  message : String
deriving DecidableEq, Repr

/-- The relational store: rows of each table plus a fresh-id/clock source. -/
structure DB where
  subjects : List Subject
  enrollments : List Enrollment
  notifications : List Notification
  nextEnrollmentId : Nat
  now : Nat
deriving DecidableEq, Repr

/-- Errors raised by the services: `DoesNotExist` and the grade-range
`ValueError`. -/
inductive SvcError where
  | notFound
  | invalidRange
deriving DecidableEq, Repr

/-- `Subject.objects.get(id=subject_id)` as a lookup by id. -/
def findSubject (db : DB) (sid : Nat) : Option Subject :=
  db.subjects.find? (fun s => decide (s.id = sid))

/-- Rule 2 of `can_enroll`: the row blocks re-enrollment when its state is
`approved`, `enrolled` or `closed` (`failed` excluded). -/
def isBlocking (uid sid : Nat) (e : Enrollment) : Bool :=
  decide (e.student = uid ∧ e.subject = sid ∧
    (e.state = EState.approved ∨ e.state = EState.enrolled ∨ e.state = EState.closed))

/-- `Enrollment.objects.filter(student=user, subject=subject,
state__in=["approved","enrolled","closed"]).exists()`. -/
def hasBlockingEnrollment (db : DB) (u : User) (s : Subject) : Bool :=
  db.enrollments.any (isBlocking u.id s.id)

/-- Subject ids of the user's `approved`-state enrollments. -/
def approvedSubjectIds (db : DB) (u : User) : List Nat :=
  (db.enrollments.filter
    (fun e => decide (e.student = u.id ∧ e.state = EState.approved))).map
    (fun e => e.subject)

/-- Rule 3 of `can_enroll`: some prerequisite id is not approved. -/
def missingPrerequisite (db : DB) (u : User) (s : Subject) : Bool :=
  s.prerequisites.any (fun p => decide (p ∉ approvedSubjectIds db u))

/-- `user.student.max_credits_per_term if hasattr(user, "student") else 0`. -/
def maxCredits (u : User) : Nat :=
  match u.student with
  | some s => s.max_credits_per_term
  | none => 0

/-- Credit weight of the subject with the given id (0 when the id dangles;
foreign keys make that unreachable in the source). -/
def subjectCredits (subjects : List Subject) (sid : Nat) : Nat :=
  match subjects.find? (fun s => decide (s.id = sid)) with
  | some s => s.credits
  | none => 0

/-- Sum of credit weights of the user's `enrolled`-state subjects, over an
explicit subject table and enrollment list. -/
def creditsUsedIn (subjects : List Subject) (es : List Enrollment) (uid : Nat) : Nat :=
  ((es.filter (fun e => decide (e.student = uid ∧ e.state = EState.enrolled))).map
    (fun e => subjectCredits subjects e.subject)).sum

/-- `sum(enrollment.subject.credits for enrollment in current_enrollments)`. -/
def creditsUsed (db : DB) (u : User) : Nat :=
  creditsUsedIn db.subjects db.enrollments u.id

/-- `subjects.services.can_enroll`: the four denial rules in source order.
The function only reads the store (its type returns no `DB`), matching the
query-only body of the source. -/
def can_enroll (db : DB) (user : User) (subject_id : Nat) :
    Except SvcError (Bool × String) :=
  if user.role ≠ some "student" then .ok (false, "not authorized")
  else
    match findSubject db subject_id with
    | none => .error .notFound
    | some subject =>
      if hasBlockingEnrollment db user subject then
        .ok (false, "already taken or enrolled")
      else if missingPrerequisite db user subject then
        .ok (false, "missing prerequisites")
      else if maxCredits user < creditsUsed db user + subject.credits then
        .ok (false, "credits exceeded")
      else .ok (true, "ok")

/-- The `get_or_create` filter: same student and subject, any state. -/
def pairMatches (uid sid : Nat) (e : Enrollment) : Bool :=
  decide (e.student = uid ∧ e.subject = sid)

/-- `subjects.services.enroll`: `get_or_create(student=user, subject=subject,
defaults={"state": "enrolled"})` — returns an existing row untouched, or
appends a fresh row in state `enrolled` with null grade. -/
def enroll (db : DB) (user : User) (subject_id : Nat) :
    Except SvcError (DB × Enrollment) :=
  match findSubject db subject_id with
  | none => .error .notFound
  | some subject =>
    match db.enrollments.find? (pairMatches user.id subject.id) with
    | some e => .ok (db, e)
    | none =>
      let e : Enrollment :=
        { id := db.nextEnrollmentId, student := user.id, subject := subject.id,
          state := EState.enrolled, grade := none, created_at := db.now }
      .ok ({ db with
              enrollments := db.enrollments ++ [e],
              nextEnrollmentId := db.nextEnrollmentId + 1,
              now := db.now + 1 }, e)

/-- The `subject__assigned_instructor=instructor` join condition. -/
def instructorOwns (db : DB) (instructorId : Nat) (e : Enrollment) : Bool :=
  match findSubject db e.subject with
  | some s => decide (s.assigned_instructor = some instructorId)
  | none => false

/-- `round(Decimal(value), 1)` in integer tenths: decimal rounding to the
nearest tenth, ties to even. -/
def roundHalfEvenTenths (value : ℚ) : Int :=
  let x : ℚ := 10 * value
  let n : Int := ⌊x⌋
  let r : ℚ := x - (n : ℚ)
  if r < 1 / 2 then n
  else if 1 / 2 < r then n + 1
  else if n % 2 = 0 then n else n + 1

/-- Rendering of a one-decimal grade, as `str(Decimal)` does (`"3.0"`). -/
def tenthsToString (g : Int) : String :=
  toString (g / 10) ++ "." ++ toString (g % 10)

/-- `subject.name` for the notification message. -/
def subjectName (db : DB) (sid : Nat) : String :=
  match findSubject db sid with
  | some s => s.name
  | none => ""

/-- `subjects.services.grade`: range check, ownership-filtered lookup, then
rounding, state derivation, save, and one notification. Error paths return
the store unchanged. -/
def grade (db : DB) (instructor : User) (enrollment_id : Nat) (value : ℚ) :
    DB × Except SvcError Enrollment :=
  if value < 0 ∨ 5 < value then (db, .error .invalidRange)
  else
    match db.enrollments.find?
        (fun e => decide (e.id = enrollment_id) && instructorOwns db instructor.id e) with
    | none => (db, .error .notFound)
    | some e =>
      let g : Int := roundHalfEvenTenths value
      let e' : Enrollment :=
        { e with grade := some g,
                 state := if 30 ≤ g then EState.approved else EState.failed }
      let notif : Notification :=
        { user := e.student, type := "grade",
          message := "Grade " ++ tenthsToString g ++ " in " ++ subjectName db e.subject }
      ({ db with
          enrollments := db.enrollments.map (fun x => if x.id = e.id then e' else x),
          notifications := db.notifications ++ [notif] }, .ok e')

/-- The queryset of `close_subject`: enrollments of the subject whose
subject's assigned instructor is the caller. -/
def siblingEnrollments (db : DB) (instructorId sid : Nat) : List Enrollment :=
  db.enrollments.filter
    (fun e => decide (e.subject = sid) && instructorOwns db instructorId e)

/-- `subjects.services.close_subject`: false when the queryset is empty or
some row has a null grade, otherwise bulk-update the queryset to `closed`. -/
def close_subject (db : DB) (instructor : User) (subject_id : Nat) : DB × Bool :=
  let siblings := siblingEnrollments db instructor.id subject_id
  if siblings.isEmpty then (db, false)
  else if siblings.any (fun e => e.grade.isNone) then (db, false)
  else
    ({ db with
        enrollments := db.enrollments.map (fun e =>
          if decide (e.subject = subject_id) && instructorOwns db instructor.id e
          then { e with state := EState.closed } else e) }, true)

/-- `Enrollment.objects.filter(state__in=["approved", "failed"])`. -/
def closedPopulation (db : DB) : List Enrollment :=
  db.enrollments.filter
    (fun e => decide (e.state = EState.approved ∨ e.state = EState.failed))

/-- Count of enrollments in a given state. -/
def countState (db : DB) (s : EState) : Nat :=
  (db.enrollments.filter (fun e => decide (e.state = s))).length

/-- Rounded quotient `n / t` to the nearest integer, ties to even
(`t` assumed positive): models Python's `round` of the exact ratio. -/
def roundHalfEvenDiv (n t : Nat) : Nat :=
  let q := n / t
  let r := n % t
  if 2 * r < t then q
  else if t < 2 * r then q + 1
  else if q % 2 = 0 then q else q + 1

/-- `round(approval_rate, 2)` of `get_admin_statistics`, in hundredths of a
percent: `(approved / total) * 100` over the approved-or-failed population,
0 when that population is empty. -/
def approval_rate_hundredths (db : DB) : Nat :=
  let total := (closedPopulation db).length
  if total = 0 then 0
  else
    roundHalfEvenDiv
      (((closedPopulation db).filter (fun e => decide (e.state = EState.approved))).length * 10000)
      total

/-- `round(failure_rate, 2)` of `get_admin_statistics`, in hundredths. -/
def failure_rate_hundredths (db : DB) : Nat :=
  let total := (closedPopulation db).length
  if total = 0 then 0
  else
    roundHalfEvenDiv
      (((closedPopulation db).filter (fun e => decide (e.state = EState.failed))).length * 10000)
      total

/-- A value that is already an exact tenth rounds to itself: the stored
tenths of `round(Decimal(k/10), 1)` are `k`. -/
theorem roundHalfEvenTenths_exact (k : Int) :
    roundHalfEvenTenths ((k : ℚ) / 10) = k := by
  have hx : (10 : ℚ) * ((k : ℚ) / 10) = (k : ℚ) := by ring
  simp only [roundHalfEvenTenths, hx, Int.floor_intCast, sub_self]
  norm_num

/-! ## Shared lemmas and concrete stores -/

/-- A successful subject lookup returns the row keyed by the requested id. -/
theorem findSubject_id {db : DB} {sid : Nat} {subj : Subject}
    (hs : findSubject db sid = some subj) : subj.id = sid := by
  have h := List.find?_some hs
  simpa using h

/-- Credit weight read off a successful lookup. -/
theorem subjectCredits_of_find {db : DB} {sid : Nat} {subj : Subject}
    (hs : findSubject db sid = some subj) :
    subjectCredits db.subjects sid = subj.credits := by
  unfold findSubject at hs
  unfold subjectCredits
  rw [hs]

/-- Appending one row changes the enrolled-credit sum by that row's
contribution. -/
theorem creditsUsedIn_append (S : List Subject) (l : List Enrollment)
    (e : Enrollment) (uid : Nat) :
    creditsUsedIn S (l ++ [e]) uid =
      creditsUsedIn S l uid +
        (if e.student = uid ∧ e.state = EState.enrolled then subjectCredits S e.subject else 0) := by
  by_cases h : e.student = uid ∧ e.state = EState.enrolled <;>
    simp [creditsUsedIn, List.filter_append, h]

/-- `find?` skips a prefix on which it returns `none`. -/
theorem find?_append_of_none {α : Type} {p : α → Bool} {l₁ l₂ : List α}
    (h : l₁.find? p = none) : (l₁ ++ l₂).find? p = l₂.find? p := by
  induction l₁ with
  | nil => simp
  | cons a t ih =>
    cases hpa : p a with
    | true => simp [List.find?_cons, hpa] at h
    | false =>
      rw [List.find?_cons_of_neg _ (by simp [hpa])] at h
      simpa [List.find?_cons, hpa] using ih h

/-- Sample student with the default credit limit of 16. -/
def exStudent : User := { id := 1, role := some "student", student := some ⟨16⟩ }

/-- Sample user holding a non-student role. -/
def exAdmin : User := { id := 2, role := some "admin", student := none }

/-- Sample instructor. -/
def exInstructor : User := { id := 7, role := some "instructor", student := none }

/-- Sample subject taught by `exInstructor`, no prerequisites, 3 credits. -/
def exSubject : Subject :=
  { id := 1, name := "Algebra", code := "MAT101", credits := 3,
    prerequisites := [], assigned_instructor := some 7 }

/-- Store holding only `exSubject`. -/
def exDb : DB :=
  { subjects := [exSubject], enrollments := [], notifications := [],
    nextEnrollmentId := 1, now := 0 }

/-- Store with no subjects at all. -/
def exEmptyDb : DB :=
  { subjects := [], enrollments := [], notifications := [],
    nextEnrollmentId := 1, now := 0 }

/-! ## C1: `can_enroll` evaluates its denial rules in a fixed order -/

/-- C1: `can_enroll` applies its four denial rules in source order, short-
circuiting on the first failing rule: non-student role, blocking enrollment
(approved / enrolled / closed, `failed` excluded by `isBlocking`), missing
prerequisite, credit overflow; otherwise it allows.  Each conjunct fixes the
outcome from the earliest failing rule alone, so when several rules fail the
earliest one determines the reason.  The function's type returns no `DB`, so
it mutates no state. -/
theorem can_enroll_rule_order (db : DB) (u : User) (sid : Nat) (subj : Subject)
    (hs : findSubject db sid = some subj) :
    (u.role ≠ some "student" → can_enroll db u sid = .ok (false, "not authorized")) ∧
    (u.role = some "student" → hasBlockingEnrollment db u subj = true →
      can_enroll db u sid = .ok (false, "already taken or enrolled")) ∧
    (u.role = some "student" → hasBlockingEnrollment db u subj = false →
      missingPrerequisite db u subj = true →
      can_enroll db u sid = .ok (false, "missing prerequisites")) ∧
    (u.role = some "student" → hasBlockingEnrollment db u subj = false →
      missingPrerequisite db u subj = false →
      maxCredits u < creditsUsed db u + subj.credits →
      can_enroll db u sid = .ok (false, "credits exceeded")) ∧
    (u.role = some "student" → hasBlockingEnrollment db u subj = false →
      missingPrerequisite db u subj = false →
      creditsUsed db u + subj.credits ≤ maxCredits u →
      can_enroll db u sid = .ok (true, "ok")) := by
  refine ⟨fun h1 => ?_, fun h1 h2 => ?_, fun h1 h2 h3 => ?_,
          fun h1 h2 h3 h4 => ?_, fun h1 h2 h3 h4 => ?_⟩
  · simp [can_enroll, h1]
  · simp [can_enroll, hs, h1, h2]
  · simp [can_enroll, hs, h1, h2, h3]
  · simp [can_enroll, hs, h1, h2, h3, h4]
  · simp [can_enroll, hs, h1, h2, h3, Nat.not_lt.mpr h4]

/-- Witness for C1 at concrete stores: a non-student is refused even though
every later rule would pass, and an eligible student is allowed. -/
theorem can_enroll_rule_order_witness :
    can_enroll exDb exAdmin 1 = .ok (false, "not authorized") ∧
    can_enroll exDb exStudent 1 = .ok (true, "ok") :=
  ⟨(can_enroll_rule_order exDb exAdmin 1 exSubject rfl).1 (by decide),
   (can_enroll_rule_order exDb exStudent 1 exSubject rfl).2.2.2.2 rfl rfl rfl (by decide)⟩

/-! ## C10: missing subject behaviour of `can_enroll` -/

/-- C10: when the subject id matches no `Subject` row, `can_enroll` raises
`DoesNotExist` for a student caller (the `Subject.objects.get` lookup), while
a caller whose role is absent or not `student` still gets the
`not authorized` denial because the role check runs before the lookup. -/
theorem can_enroll_missing_subject (db : DB) (u : User) (sid : Nat)
    (hs : findSubject db sid = none) :
    (u.role = some "student" → can_enroll db u sid = .error .notFound) ∧
    (u.role ≠ some "student" → can_enroll db u sid = .ok (false, "not authorized")) := by
  constructor <;> intro h <;> simp [can_enroll, hs, h]

/-- Witness for C10 on the empty store: the student sees `DoesNotExist`, the
admin still sees `not authorized`. -/
theorem can_enroll_missing_subject_witness :
    can_enroll exEmptyDb exStudent 99 = .error .notFound ∧
    can_enroll exEmptyDb exAdmin 99 = .ok (false, "not authorized") :=
  ⟨(can_enroll_missing_subject exEmptyDb exStudent 99 rfl).1 rfl,
   (can_enroll_missing_subject exEmptyDb exAdmin 99 rfl).2 (by decide)⟩

/-! ## C2: the credit limit is checked and preserved -/

/-- C2: `can_enroll` allows only when the enrolled-credit sum plus the
target's credits stays within `maxCredits` (a user without a Student profile
has limit 0 and is denied any subject of positive credits), and therefore a
single admitted `enroll` preserves the invariant that the enrolled-credit
sum never exceeds the limit. -/
theorem can_enroll_credit_invariant (db : DB) (u : User) (sid : Nat)
    (subj : Subject) (hs : findSubject db sid = some subj) :
    (∀ r, can_enroll db u sid = .ok (true, r) →
      creditsUsed db u + subj.credits ≤ maxCredits u) ∧
    (u.student = none → 0 < subj.credits →
      ∀ r, can_enroll db u sid ≠ .ok (true, r)) ∧
    (creditsUsed db u ≤ maxCredits u → can_enroll db u sid = .ok (true, "ok") →
      ∀ db' e, enroll db u sid = .ok (db', e) → creditsUsed db' u ≤ maxCredits u) := by
  have key : ∀ r, can_enroll db u sid = .ok (true, r) →
      creditsUsed db u + subj.credits ≤ maxCredits u := by
    intro r h
    by_contra hgt
    rw [Nat.not_le] at hgt
    by_cases hr : u.role = some "student" <;>
      cases hb : hasBlockingEnrollment db u subj <;>
        cases hm : missingPrerequisite db u subj <;>
          simp [can_enroll, hs, hr, hb, hm, hgt] at h
  refine ⟨key, fun hstud hpos r h => ?_, fun hinv hok db' e hen => ?_⟩
  · have hk := key r h
    simp [maxCredits, hstud] at hk
    omega
  · simp only [enroll, hs] at hen
    cases hfind : db.enrollments.find? (pairMatches u.id subj.id) with
    | some e0 =>
      rw [hfind] at hen
      simp only [Except.ok.injEq, Prod.mk.injEq] at hen
      rw [← hen.1]
      exact hinv
    | none =>
      rw [hfind] at hen
      simp only [Except.ok.injEq, Prod.mk.injEq] at hen
      rw [← hen.1]
      have hca :
          creditsUsed
            { db with
                enrollments := db.enrollments ++
                  [{ id := db.nextEnrollmentId, student := u.id, subject := subj.id,
                     state := EState.enrolled, grade := none, created_at := db.now }],
                nextEnrollmentId := db.nextEnrollmentId + 1, now := db.now + 1 } u =
            creditsUsed db u + subj.credits := by
        show creditsUsedIn db.subjects (db.enrollments ++ _) u.id = _
        rw [creditsUsedIn_append]
        have hid := findSubject_id hs
        simp only [creditsUsed]
        rw [hid, subjectCredits_of_find hs]
        simp
      rw [hca]
      exact key "ok" hok

/-- Store after `exStudent` enrolled in `exSubject` (3 of 16 credits used). -/
def exDbAfterEnroll : DB :=
  { subjects := [exSubject],
    enrollments := [{ id := 1, student := 1, subject := 1,
                      state := EState.enrolled, grade := none, created_at := 0 }],
    notifications := [], nextEnrollmentId := 2, now := 1 }

/-- Witness for C2: the admitted enrollment of `exStudent` keeps the
enrolled-credit sum within the limit. -/
theorem can_enroll_credit_invariant_witness :
    creditsUsed exDbAfterEnroll exStudent ≤ maxCredits exStudent :=
  (can_enroll_credit_invariant exDb exStudent 1 exSubject rfl).2.2
    (by decide) rfl exDbAfterEnroll
    { id := 1, student := 1, subject := 1, state := EState.enrolled,
      grade := none, created_at := 0 } rfl

/-! ## C7: `enroll` is idempotent -/

/-- C7: when no row exists for the pair, the first `enroll` appends exactly
one row in state `enrolled` with null grade, and a second `enroll` for the
same pair returns that row without creating a duplicate: the pair-filtered
table has exactly one row afterwards. -/
theorem enroll_idempotent (db : DB) (u : User) (sid : Nat) (subj : Subject)
    (hs : findSubject db sid = some subj)
    (hnone : db.enrollments.find? (pairMatches u.id subj.id) = none) :
    ∃ db1 e1,
      enroll db u sid = .ok (db1, e1) ∧
      e1.state = EState.enrolled ∧ e1.grade = none ∧
      enroll db1 u sid = .ok (db1, e1) ∧
      (db1.enrollments.filter (pairMatches u.id subj.id)).length = 1 := by
  refine ⟨{ db with
              enrollments := db.enrollments ++
                [{ id := db.nextEnrollmentId, student := u.id, subject := subj.id,
                   state := EState.enrolled, grade := none, created_at := db.now }],
              nextEnrollmentId := db.nextEnrollmentId + 1, now := db.now + 1 },
          { id := db.nextEnrollmentId, student := u.id, subject := subj.id,
            state := EState.enrolled, grade := none, created_at := db.now },
          ?_, rfl, rfl, ?_, ?_⟩
  · simp [enroll, hs, hnone]
  · have hs' : List.find? (fun s => decide (s.id = sid)) db.subjects = some subj := hs
    simp only [enroll, findSubject]
    rw [hs']
    dsimp only
    rw [find?_append_of_none hnone]
    simp [pairMatches]
  · rw [List.filter_append, List.filter_eq_nil_iff.mpr (List.find?_eq_none.mp hnone)]
    simp [pairMatches]

/-- Witness for C7: double-enrolling `exStudent` in the empty-enrollment
store yields a single row in state `enrolled` with null grade. -/
theorem enroll_idempotent_witness :
    ∃ db1 e1,
      enroll exDb exStudent 1 = .ok (db1, e1) ∧
      e1.state = EState.enrolled ∧ e1.grade = none ∧
      enroll db1 exStudent 1 = .ok (db1, e1) ∧
      (db1.enrollments.filter (pairMatches exStudent.id exSubject.id)).length = 1 :=
  enroll_idempotent exDb exStudent 1 exSubject rfl rfl

/-! ## C8: `enroll` returns an existing row untouched -/

/-- C8: when a row already exists for the pair — in any state, including
`failed` — `enroll` returns the store unchanged together with that row, so
its state, grade and creation timestamp are exactly as stored: the
`enrolled` default applies only at creation. -/
theorem enroll_existing_row_unchanged (db : DB) (u : User) (sid : Nat)
    (subj : Subject) (e : Enrollment)
    (hs : findSubject db sid = some subj)
    (hfind : db.enrollments.find? (pairMatches u.id subj.id) = some e) :
    enroll db u sid = .ok (db, e) ∧ e ∈ db.enrollments ∧
      e.student = u.id ∧ e.subject = subj.id := by
  have hp := List.find?_some hfind
  simp only [pairMatches, decide_eq_true_eq] at hp
  exact ⟨by simp [enroll, hs, hfind], List.mem_of_find?_eq_some hfind, hp.1, hp.2⟩

/-- Store where `exStudent` previously failed `exSubject` with grade 2.0. -/
def exFailedDb : DB :=
  { subjects := [exSubject],
    enrollments := [{ id := 1, student := 1, subject := 1,
                      state := EState.failed, grade := some 20, created_at := 0 }],
    notifications := [], nextEnrollmentId := 2, now := 1 }

/-- Witness for C8: re-enrolling after a failure returns the `failed` row
with its grade and timestamp intact and leaves the store unchanged. -/
theorem enroll_existing_row_unchanged_witness :
    enroll exFailedDb exStudent 1 =
      .ok (exFailedDb,
        { id := 1, student := 1, subject := 1, state := EState.failed,
          grade := some 20, created_at := 0 }) :=
  (enroll_existing_row_unchanged exFailedDb exStudent 1 exSubject
    { id := 1, student := 1, subject := 1, state := EState.failed,
      grade := some 20, created_at := 0 } rfl rfl).1

/-! ## C5: `close_subject` closes all or nothing -/

/-- Ownership of an enrollment only depends on its subject id. -/
theorem instructorOwns_of_subject_eq {db : DB} {i : Nat} {e e' : Enrollment}
    (h : e.subject = e'.subject) :
    instructorOwns db i e = instructorOwns db i e' := by
  unfold instructorOwns
  rw [h]

/-- Ownership only reads the subject table, so updating the enrollment table
does not change it. -/
theorem instructorOwns_update (db : DB) (l : List Enrollment) (i : Nat)
    (e : Enrollment) :
    instructorOwns { db with enrollments := l } i e = instructorOwns db i e := rfl

/-- Closing a row keeps its subject. -/
theorem setClosed_subject (e : Enrollment) :
    ({ e with state := EState.closed } : Enrollment).subject = e.subject := rfl

/-- Closing a row keeps its grade. -/
theorem setClosed_grade (e : Enrollment) :
    ({ e with state := EState.closed } : Enrollment).grade = e.grade := rfl

/-- Closing a row keeps its owner. -/
theorem instructorOwns_setClosed (db : DB) (i : Nat) (e : Enrollment) :
    instructorOwns db i { e with state := EState.closed } =
      instructorOwns db i e :=
  instructorOwns_of_subject_eq rfl

/-- C5: `close_subject` returns `false` and leaves the store untouched when
its queryset (the subject's enrollments under the calling instructor) is
empty or contains a null grade; otherwise it returns `true`, sets the state
of every enrollment of that subject to `closed` while leaving all other rows
unchanged, and invoking it again on the result succeeds and changes
nothing. -/
theorem close_subject_spec (db : DB) (instr : User) (sid : Nat) :
    (siblingEnrollments db instr.id sid = [] →
      close_subject db instr sid = (db, false)) ∧
    ((∃ e ∈ siblingEnrollments db instr.id sid, e.grade = none) →
      close_subject db instr sid = (db, false)) ∧
    (siblingEnrollments db instr.id sid ≠ [] →
      (∀ e ∈ siblingEnrollments db instr.id sid, e.grade ≠ none) →
      (close_subject db instr sid).2 = true ∧
      (close_subject db instr sid).1.enrollments =
        db.enrollments.map (fun e =>
          if e.subject = sid then { e with state := EState.closed } else e) ∧
      close_subject (close_subject db instr sid).1 instr sid =
        ((close_subject db instr sid).1, true)) := by
  refine ⟨fun h => ?_, fun hex => ?_, fun hne hall => ?_⟩
  · simp only [close_subject]
    rw [h]
    simp
  · obtain ⟨e, he, hg⟩ := hex
    have hany : (siblingEnrollments db instr.id sid).any (fun e => e.grade.isNone) = true :=
      List.any_eq_true.mpr ⟨e, he, by simp [hg]⟩
    by_cases hemp : (siblingEnrollments db instr.id sid).isEmpty <;>
      simp [close_subject, hemp, hany]
  · have hemp : (siblingEnrollments db instr.id sid).isEmpty = false := by
      simpa [List.isEmpty_iff] using hne
    have hany : (siblingEnrollments db instr.id sid).any (fun e => e.grade.isNone) = false := by
      rw [List.any_eq_false]
      intro x hx
      simpa [Option.isNone_iff_eq_none] using hall x hx
    have hred : close_subject db instr sid =
        ({ db with enrollments := db.enrollments.map (fun e =>
            if decide (e.subject = sid) && instructorOwns db instr.id e
            then { e with state := EState.closed } else e) }, true) := by
      simp [close_subject, hemp, hany]
    -- the instructor owns every enrollment of this subject
    obtain ⟨e0, he0, hp0⟩ : ∃ e0 ∈ db.enrollments,
        (decide (e0.subject = sid) && instructorOwns db instr.id e0) = true := by
      rcases List.exists_mem_of_ne_nil _ hne with ⟨e0, he0⟩
      rw [siblingEnrollments] at he0
      obtain ⟨hmem, hpred⟩ := List.mem_filter.mp he0
      exact ⟨e0, hmem, hpred⟩
    rw [Bool.and_eq_true, decide_eq_true_eq] at hp0
    have hins : ∀ e : Enrollment, e.subject = sid → instructorOwns db instr.id e = true := by
      intro e he
      rw [@instructorOwns_of_subject_eq db instr.id _ e0 (he.trans hp0.1.symm)]
      exact hp0.2
    have hmapeq : db.enrollments.map (fun e =>
        if decide (e.subject = sid) && instructorOwns db instr.id e
        then { e with state := EState.closed } else e) =
        db.enrollments.map (fun e =>
          if e.subject = sid then { e with state := EState.closed } else e) := by
      apply List.map_congr_left
      intro a _
      by_cases ha : a.subject = sid
      · simp [ha, hins a ha]
      · simp [ha]
    refine ⟨by rw [hred], by rw [hred, hmapeq], ?_⟩
    rw [hred]
    -- second invocation on the closed store
    have hsib2 : siblingEnrollments
        ({ db with enrollments := db.enrollments.map (fun e =>
            if decide (e.subject = sid) && instructorOwns db instr.id e
            then { e with state := EState.closed } else e) }) instr.id sid =
        (siblingEnrollments db instr.id sid).map (fun e =>
          if decide (e.subject = sid) && instructorOwns db instr.id e
          then { e with state := EState.closed } else e) := by
      show List.filter _ (db.enrollments.map _) = _
      rw [List.filter_map]
      congr 1
      apply List.filter_congr
      intro a _
      simp only [Function.comp, instructorOwns_update]
      by_cases hc : (decide (a.subject = sid) && instructorOwns db instr.id a) = true <;>
        simp [hc, setClosed_subject, instructorOwns_setClosed]
    have hemp2 : (siblingEnrollments
        ({ db with enrollments := db.enrollments.map (fun e =>
            if decide (e.subject = sid) && instructorOwns db instr.id e
            then { e with state := EState.closed } else e) }) instr.id sid).isEmpty = false := by
      rw [hsib2]
      simp only [List.isEmpty_eq_false, ne_eq, List.map_eq_nil_iff]
      simpa [List.isEmpty_iff] using hemp
    have hany2 : (siblingEnrollments
        ({ db with enrollments := db.enrollments.map (fun e =>
            if decide (e.subject = sid) && instructorOwns db instr.id e
            then { e with state := EState.closed } else e) }) instr.id sid).any
          (fun e => e.grade.isNone) = false := by
      rw [hsib2, List.any_eq_false]
      intro x hx
      rcases List.mem_map.mp hx with ⟨y, hy, hfy⟩
      have hgy : x.grade = y.grade := by
        rw [← hfy]
        by_cases hc : (decide (y.subject = sid) && instructorOwns db instr.id y) = true <;>
          simp [hc]
      simp [Option.isNone_iff_eq_none, hgy]
      exact hall y hy
    have hidem : (db.enrollments.map (fun e =>
        if decide (e.subject = sid) && instructorOwns db instr.id e
        then { e with state := EState.closed } else e)).map (fun e =>
          if decide (e.subject = sid) && instructorOwns db instr.id e
          then { e with state := EState.closed } else e) =
        db.enrollments.map (fun e =>
          if decide (e.subject = sid) && instructorOwns db instr.id e
          then { e with state := EState.closed } else e) := by
      rw [List.map_map]
      apply List.map_congr_left
      intro a _
      simp only [Function.comp]
      by_cases hc : (decide (a.subject = sid) && instructorOwns db instr.id a) = true <;>
        simp [hc, setClosed_subject, instructorOwns_setClosed]
    simp only [close_subject, hemp2, hany2, Bool.false_eq_true, if_false]
    simp only [instructorOwns_update]
    rw [hidem]

/-- Store where `exStudent` already got grade 4.0 in `exSubject`. -/
def exGradedDb : DB :=
  { subjects := [exSubject],
    enrollments := [{ id := 1, student := 1, subject := 1,
                      state := EState.approved, grade := some 40, created_at := 0 }],
    notifications := [], nextEnrollmentId := 2, now := 1 }

/-- Witness for C5: closing succeeds on the fully graded store and is
refused (store untouched) while a null grade remains. -/
theorem close_subject_spec_witness :
    (close_subject exGradedDb exInstructor 1).2 = true ∧
    close_subject exDbAfterEnroll exInstructor 1 = (exDbAfterEnroll, false) :=
  ⟨((close_subject_spec exGradedDb exInstructor 1).2.2 (by decide)
      (by decide)).1,
   (close_subject_spec exDbAfterEnroll exInstructor 1).2.1
     ⟨{ id := 1, student := 1, subject := 1, state := EState.enrolled,
        grade := none, created_at := 0 }, by decide, rfl⟩⟩

/-! ## C9: approval and failure rates -/

/-- The approved-or-failed population splits into the two state counts. -/
theorem filter_or_length (l : List Enrollment) :
    (l.filter (fun e => decide (e.state = EState.approved ∨ e.state = EState.failed))).length =
      (l.filter (fun e => decide (e.state = EState.approved))).length +
        (l.filter (fun e => decide (e.state = EState.failed))).length := by
  induction l with
  | nil => simp
  | cons a t ih =>
    simp only [Bool.decide_or] at ih ⊢
    cases ha : a.state <;> simp [List.filter_cons, ha, ih] <;> omega

/-- Filtering the population down to `approved` is filtering the table. -/
theorem filter_or_approved (l : List Enrollment) :
    ((l.filter (fun e => decide (e.state = EState.approved ∨ e.state = EState.failed))).filter
        (fun e => decide (e.state = EState.approved))) =
      l.filter (fun e => decide (e.state = EState.approved)) := by
  rw [List.filter_filter]
  apply List.filter_congr
  intro a _
  cases ha : a.state <;> simp [ha]

/-- Filtering the population down to `failed` is filtering the table. -/
theorem filter_or_failed (l : List Enrollment) :
    ((l.filter (fun e => decide (e.state = EState.approved ∨ e.state = EState.failed))).filter
        (fun e => decide (e.state = EState.failed))) =
      l.filter (fun e => decide (e.state = EState.failed)) := by
  rw [List.filter_filter]
  apply List.filter_congr
  intro a _
  cases ha : a.state <;> simp [ha]

/-- The pure rate formula: percentage in hundredths over `a` hits out of
`a + b`, 0 for an empty population. -/
def rateOf (a b : Nat) : Nat :=
  if a + b = 0 then 0 else roundHalfEvenDiv (a * 10000) (a + b)

/-- The approval rate is a function of the two state counts alone. -/
theorem approval_rate_eq (db : DB) :
    approval_rate_hundredths db =
      rateOf (countState db EState.approved) (countState db EState.failed) := by
  unfold approval_rate_hundredths rateOf countState closedPopulation
  rw [filter_or_length, filter_or_approved]

/-- The failure rate is a function of the two state counts alone. -/
theorem failure_rate_eq (db : DB) :
    failure_rate_hundredths db =
      rateOf (countState db EState.failed) (countState db EState.approved) := by
  unfold failure_rate_hundredths rateOf countState closedPopulation
  rw [filter_or_length, filter_or_failed,
    Nat.add_comm ((db.enrollments.filter (fun e => decide (e.state = EState.approved))).length)
      ((db.enrollments.filter (fun e => decide (e.state = EState.failed))).length)]

/-- C9: the rates are computed only over enrollments in state `approved` or
`failed` — they depend on nothing but those two counts, so `enrolled` and
`closed` rows are excluded from the denominator — both are 0 on an empty
population, and a store with 10 approved and 5 failed rows (whatever else it
contains) yields 66.67% and 33.33%. -/
theorem statistics_rates (db : DB) :
    (closedPopulation db = [] →
      approval_rate_hundredths db = 0 ∧ failure_rate_hundredths db = 0) ∧
    (countState db EState.approved = 10 → countState db EState.failed = 5 →
      approval_rate_hundredths db = 6667 ∧ failure_rate_hundredths db = 3333) ∧
    (∀ db2 : DB, countState db EState.approved = countState db2 EState.approved →
      countState db EState.failed = countState db2 EState.failed →
      approval_rate_hundredths db = approval_rate_hundredths db2 ∧
      failure_rate_hundredths db = failure_rate_hundredths db2) := by
  refine ⟨fun hpop => ?_, fun ha hf => ?_, fun db2 ha hf => ?_⟩
  · constructor <;> simp [approval_rate_hundredths, failure_rate_hundredths, hpop]
  · rw [approval_rate_eq, failure_rate_eq, ha, hf]
    exact ⟨by decide, by decide⟩
  · rw [approval_rate_eq, failure_rate_eq, ha, hf, ← approval_rate_eq db2,
      ← failure_rate_eq db2]
    exact ⟨rfl, rfl⟩

/-- Store with 10 approved, 5 failed, one enrolled and one closed row. -/
def exStatsDb : DB :=
  { subjects := [],
    enrollments :=
      List.replicate 10
        ({ id := 0, student := 0, subject := 0, state := EState.approved,
           grade := some 40, created_at := 0 } : Enrollment) ++
      List.replicate 5
        ({ id := 0, student := 0, subject := 0, state := EState.failed,
           grade := some 20, created_at := 0 } : Enrollment) ++
      [{ id := 0, student := 0, subject := 0, state := EState.enrolled,
         grade := none, created_at := 0 },
       { id := 0, student := 0, subject := 0, state := EState.closed,
         grade := some 30, created_at := 0 }],
    notifications := [], nextEnrollmentId := 100, now := 0 }

/-- Witness for C9 on the 10-approved / 5-failed store. -/
theorem statistics_rates_witness :
    approval_rate_hundredths exStatsDb = 6667 ∧
    failure_rate_hundredths exStatsDb = 3333 :=
  (statistics_rates exStatsDb).2.1 (by decide) (by decide)

/-! ## C4: error behaviour of `grade` -/

/-- C4: `grade` raises the invalid-range error exactly when the value lies
outside `[0, 5]` (both bounds accepted), raises `DoesNotExist` exactly when
the value is in range but no enrollment with that id is owned by the calling
instructor (a mismatched instructor is indistinguishable from a missing id),
and on every error path returns the store unchanged: no enrollment is
modified and no notification is created. -/
theorem grade_error_spec (db : DB) (instr : User) (eid : Nat) (v : ℚ) :
    ((grade db instr eid v).2 = .error .invalidRange ↔ (v < 0 ∨ 5 < v)) ∧
    ((grade db instr eid v).2 = .error .notFound ↔
      (0 ≤ v ∧ v ≤ 5 ∧
        db.enrollments.find?
          (fun e => decide (e.id = eid) && instructorOwns db instr.id e) = none)) ∧
    (∀ err, (grade db instr eid v).2 = .error err → (grade db instr eid v).1 = db) := by
  by_cases hv : v < 0 ∨ 5 < v
  · refine ⟨by simp [grade, hv], ?_, fun err _ => by simp [grade, hv]⟩
    simp only [grade, hv, if_true, reduceIte]
    constructor
    · intro h
      simp at h
    · rintro ⟨h1, h2, -⟩
      rcases hv with h | h <;> linarith
  · have hv' : 0 ≤ v ∧ v ≤ 5 := by
      push_neg at hv
      exact hv
    cases hfind : db.enrollments.find?
        (fun e => decide (e.id = eid) && instructorOwns db instr.id e) with
    | none =>
      exact ⟨by simp [grade, hv, hfind],
        by simp [grade, hv, hfind, hv'.1, hv'.2],
        fun err _ => by simp [grade, hv, hfind]⟩
    | some e =>
      refine ⟨by simp [grade, hv, hfind], by simp [grade, hv, hfind], fun err h => ?_⟩
      simp [grade, hv, hfind] at h

/-- Witness for C4: 5.1 is rejected as out of range, and an id the
instructor does not own yields `DoesNotExist`. -/
theorem grade_error_spec_witness :
    (grade exGradedDb exInstructor 1 ((51 : ℚ) / 10)).2 = .error .invalidRange ∧
    (grade exGradedDb exInstructor 9 1).2 = .error .notFound :=
  ⟨((grade_error_spec exGradedDb exInstructor 1 ((51 : ℚ) / 10)).1).mpr
      (Or.inr (by norm_num)),
   ((grade_error_spec exGradedDb exInstructor 9 1).2.1).mpr
      ⟨by norm_num, by norm_num, rfl⟩⟩

/-! ## C3: success behaviour of `grade` -/

/-- C3: on success, `grade` stores the value rounded to one decimal place,
derives `approved` when the rounded grade is at least 3.0 (30 tenths) and
`failed` otherwise, persists the updated row, and appends exactly one
notification to the enrolled student of type `grade` whose message embeds
the rounded grade and the subject name. -/
theorem grade_success_spec (db : DB) (instr : User) (eid : Nat) (v : ℚ)
    (e : Enrollment) (hv0 : 0 ≤ v) (hv5 : v ≤ 5)
    (hfind : db.enrollments.find?
      (fun x => decide (x.id = eid) && instructorOwns db instr.id x) = some e) :
    grade db instr eid v =
      ({ db with
          enrollments := db.enrollments.map (fun x =>
            if x.id = e.id then
              { e with grade := some (roundHalfEvenTenths v),
                       state := if 30 ≤ roundHalfEvenTenths v
                                then EState.approved else EState.failed }
            else x),
          notifications := db.notifications ++
            [{ user := e.student, type := "grade",
               message := "Grade " ++ tenthsToString (roundHalfEvenTenths v) ++
                 " in " ++ subjectName db e.subject }] },
       .ok { e with grade := some (roundHalfEvenTenths v),
                    state := if 30 ≤ roundHalfEvenTenths v
                             then EState.approved else EState.failed }) := by
  have hv : ¬(v < 0 ∨ 5 < v) := by rintro (h | h) <;> linarith
  simp [grade, hv, hfind]

/-- Witness for C3: grading the enrolled row with 3.0 stores 30 tenths and
approves; grading with 2.9 stores 29 tenths and fails. -/
theorem grade_success_spec_witness :
    (grade exDbAfterEnroll exInstructor 1 (((30 : Int) : ℚ) / 10)).2 =
      .ok { id := 1, student := 1, subject := 1, state := EState.approved,
            grade := some 30, created_at := 0 } ∧
    (grade exDbAfterEnroll exInstructor 1 (((29 : Int) : ℚ) / 10)).2 =
      .ok { id := 1, student := 1, subject := 1, state := EState.failed,
            grade := some 29, created_at := 0 } := by
  constructor
  · rw [grade_success_spec exDbAfterEnroll exInstructor 1 (((30 : Int) : ℚ) / 10)
      { id := 1, student := 1, subject := 1, state := EState.enrolled,
        grade := none, created_at := 0 } (by norm_num) (by norm_num) rfl,
      roundHalfEvenTenths_exact]
    rfl
  · rw [grade_success_spec exDbAfterEnroll exInstructor 1 (((29 : Int) : ℚ) / 10)
      { id := 1, student := 1, subject := 1, state := EState.enrolled,
        grade := none, created_at := 0 } (by norm_num) (by norm_num) rfl,
      roundHalfEvenTenths_exact]
    rfl

/-! ## C6: which transitions exist

The claim that `closed` is terminal under every lifecycle operation fails on
the source: `grade` filters only by enrollment id and instructor, not by
state, so grading a `closed` enrollment re-derives `approved`/`failed`.
What does hold: no operation ever moves an existing row back to
`enrolled`. -/

/-- Store holding one `closed`, graded enrollment of `exSubject`. -/
def exClosedDb : DB :=
  { subjects := [exSubject],
    enrollments := [{ id := 1, student := 1, subject := 1,
                      state := EState.closed, grade := some 40, created_at := 0 }],
    notifications := [], nextEnrollmentId := 2, now := 1 }

/-- Counterexample to C6 as stated: the only enrollment is `closed`, yet
`grade` by the owning instructor with value 4.0 moves it to `approved` —
`closed` is not terminal under `grade`. -/
theorem grade_reopens_closed :
    exClosedDb.enrollments.map (fun e => e.state) = [EState.closed] ∧
    ((grade exClosedDb exInstructor 1 (((40 : Int) : ℚ) / 10)).1.enrollments.map
      (fun e => e.state)) = [EState.approved] := by
  refine ⟨rfl, ?_⟩
  have hv : ¬((((40 : Int) : ℚ) / 10) < 0 ∨ 5 < (((40 : Int) : ℚ) / 10)) := by
    norm_num
  simp only [grade]
  rw [if_neg hv, roundHalfEvenTenths_exact]
  rfl

/-- C6 (amended): no lifecycle operation moves an existing enrollment back
to `enrolled`: `enroll` leaves existing rows untouched (it at most appends a
fresh `enrolled` row), every row after `grade` is either unchanged or in
state `approved`/`failed`, and every row after `close_subject` is either
unchanged or `closed`.  `closed` is thus preserved by `enroll` and
`close_subject`; it is not preserved by `grade` (see the counterexample). -/
theorem enrollment_state_machine (db : DB) (u instr : User) (sid eid : Nat)
    (v : ℚ) :
    (∀ db' r, enroll db u sid = .ok (db', r) →
      db' = db ∨ (db'.enrollments = db.enrollments ++ [r] ∧
        r.state = EState.enrolled ∧ r.grade = none)) ∧
    (∀ e', e' ∈ (grade db instr eid v).1.enrollments →
      e' ∈ db.enrollments ∨ e'.state = EState.approved ∨ e'.state = EState.failed) ∧
    (∀ e', e' ∈ (close_subject db instr sid).1.enrollments →
      e' ∈ db.enrollments ∨ e'.state = EState.closed) := by
  refine ⟨fun db' r hen => ?_, fun e' he' => ?_, fun e' he' => ?_⟩
  · simp only [enroll] at hen
    cases hs : findSubject db sid with
    | none => rw [hs] at hen; simp at hen
    | some subj =>
      rw [hs] at hen
      dsimp only at hen
      cases hfind : db.enrollments.find? (pairMatches u.id subj.id) with
      | some e0 =>
        rw [hfind] at hen
        simp only [Except.ok.injEq, Prod.mk.injEq] at hen
        exact Or.inl hen.1.symm
      | none =>
        rw [hfind] at hen
        simp only [Except.ok.injEq, Prod.mk.injEq] at hen
        obtain ⟨h1, h2⟩ := hen
        subst h1
        subst h2
        exact Or.inr ⟨rfl, rfl, rfl⟩
  · by_cases hv : v < 0 ∨ 5 < v
    · simp [grade, hv] at he'
      exact Or.inl he'
    · cases hfind : db.enrollments.find?
          (fun x => decide (x.id = eid) && instructorOwns db instr.id x) with
      | none =>
        simp [grade, hv, hfind] at he'
        exact Or.inl he'
      | some e =>
        simp only [grade, hv, if_false, hfind, reduceIte] at he'
        rcases List.mem_map.mp he' with ⟨x, hx, hfx⟩
        by_cases hid : x.id = e.id
        · rw [if_pos hid] at hfx
          by_cases hg : 30 ≤ roundHalfEvenTenths v
          · rw [← hfx]
            simp [hg]
          · rw [← hfx]
            simp [hg]
        · rw [if_neg hid] at hfx
          exact Or.inl (hfx ▸ hx)
  · simp only [close_subject] at he'
    split at he'
    · exact Or.inl he'
    · split at he'
      · exact Or.inl he'
      · rcases List.mem_map.mp he' with ⟨x, hx, hfx⟩
        by_cases hc : (decide (x.subject = sid) && instructorOwns db instr.id x) = true
        · rw [if_pos hc] at hfx
          rw [← hfx]
          exact Or.inr rfl
        · rw [if_neg hc] at hfx
          exact Or.inl (hfx ▸ hx)

/-- Witness for the amended C6, applied to `close_subject` on the graded
store: the closed row it produces is either an original row or `closed`. -/
theorem enrollment_state_machine_witness :
    ({ id := 1, student := 1, subject := 1, state := EState.closed,
       grade := some 40, created_at := 0 } : Enrollment) ∈ exGradedDb.enrollments ∨
    ({ id := 1, student := 1, subject := 1, state := EState.closed,
       grade := some 40, created_at := 0 } : Enrollment).state = EState.closed :=
  (enrollment_state_machine exGradedDb exStudent exInstructor 1 1 0).2.2
    { id := 1, student := 1, subject := 1, state := EState.closed,
      grade := some 40, created_at := 0 } (by decide)

end AcademicApi
